import Mathlib

/-!
# snapd: access control of the daemon's commands and the i2c interface

Part 1 embeds `Command.canAccess` and `Command.ServeHTTP` of `daemon/daemon.go`.
The collaborators that live in other files (`ucrednetGet`, the polkit check,
`UserFromRequest`, the per-verb handlers and the response constructors) are
fields of an environment `Env`; every call to one of them and every log line is
recorded, in program order, in a trace of `Event`s.
-/

set_option autoImplicit false

namespace Daemon

/-- The fields of `http.Request` read by `canAccess` and `ServeHTTP`. -/
structure Request where
  Method : String
  RemoteAddr : String
deriving DecidableEq, Repr

/-- The `error` returned by `ucrednetGet`: the sentinel `errNoID` or any other. -/
inductive UcredError where
  | errNoID
  | other (msg : String)
deriving DecidableEq, Repr

/-- The triple `(pid, uid, err)` returned by `ucrednetGet`; `err = none` is Go's `nil`. -/
structure Ucred where
  pid : Nat
  uid : Nat
  err : Option UcredError
deriving DecidableEq, Repr

/-- The `error` returned by the polkit check: `polkit.ErrDismissed` or any other. -/
inductive PolkitError where
  | ErrDismissed
  | other (msg : String)
deriving DecidableEq, Repr

/-- The pair `(authorized, err)` returned by `polkitCheckAuthorizationForPid`. -/
structure PolkitResult where
  authorized : Bool
  err : Option PolkitError
deriving DecidableEq, Repr

/-- A `Command`; `F` is the type of the references to `ResponseFunc`s, `none` is a
nil function. The back pointer `d` is only used to reach the overlord state. -/
structure Command (F : Type) where
  Path : String
  GET : Option F
  PUT : Option F
  POST : Option F
  DELETE : Option F
  GuestOK : Bool
  UserOK : Bool
  SnapOK : Bool
  PolkitOK : String

/-- The argument of a log line: the Go `error` value that is printed. -/
inductive LoggedError where
  | ucred (e : UcredError)
  | polkit (e : PolkitError)
deriving DecidableEq, Repr

/-- One observable step of `canAccess` or `ServeHTTP`. -/
inductive Event (F U : Type) where
  | ucrednetGet (remoteAddr : String)
  | polkitCheck (pid : Nat) (actionId : String)
  | noticef (format : String) (arg : LoggedError)
  | stateLock
  | userFromRequest (r : Request)
  | stateUnlock
  | call (f : F) (c : Command F) (r : Request) (user : Option U)

/-- True on the events that are the invocation of a per-verb handler. -/
def Event.isCall {F U : Type} : Event F U → Bool
  | .call _ _ _ _ => true
  | _ => false

/-- The collaborators of `daemon.go` that are defined in other files. -/
structure Env (F U Resp : Type) where
  ucrednetGet : String → Ucred
  polkitCheckAuthorizationForPid : Nat → String → PolkitResult
  UserFromRequest : Request → Option U
  apply : F → Command F → Request → Option U → Resp
  Unauthorized : String → Resp
  MethodNotAllowed : String → String → Resp

section canAccess

variable {F U Resp : Type}

/-- Lines 103-112 of `daemon.go`: the polkit check of a peer that is not root.
Returns whether polkit granted access, and the trace of the block. -/
def polkitBlock (env : Env F U Resp) (c : Command F) (pid : Nat) : Bool × List (Event F U) :=
  if c.PolkitOK ≠ "" then
    let res := env.polkitCheckAuthorizationForPid pid c.PolkitOK
    match res.err with
    | none =>
      if res.authorized then (true, [Event.polkitCheck pid c.PolkitOK])
      else (false, [Event.polkitCheck pid c.PolkitOK])
    | some e =>
      if e ≠ PolkitError.ErrDismissed then
        (false, [Event.polkitCheck pid c.PolkitOK, Event.noticef "polkit error: %s" (LoggedError.polkit e)])
      else (false, [Event.polkitCheck pid c.PolkitOK])
  else (false, [])

/-- Lines 122-134 of `daemon.go`: what is granted to a caller that is neither
authenticated, nor root, nor authorised by polkit, nor on a `SnapOK` path. -/
def methodBlock (c : Command F) (r : Request) (isUser : Bool) : Bool :=
  if r.Method ≠ "GET" then false
  else if isUser && c.UserOK then true
  else if c.GuestOK then true
  else false

/-- `Command.canAccess` (lines 89-135): the decision and the trace. -/
def Command.canAccess (env : Env F U Resp) (c : Command F) (r : Request) (user : Option U) :
    Bool × List (Event F U) :=
  match user with
  | some _ => (true, [])
  | none =>
    let cred := env.ucrednetGet r.RemoteAddr
    let t0 : List (Event F U) := [Event.ucrednetGet r.RemoteAddr]
    match cred.err with
    | none =>
      if cred.uid = 0 then (true, t0)
      else
        let pk := polkitBlock env c cred.pid
        if pk.1 then (true, t0 ++ pk.2)
        else (methodBlock c r true, t0 ++ pk.2)
    | some e =>
      if e ≠ UcredError.errNoID then
        (false, t0 ++ [Event.noticef "unexpected error when attempting to get UID: %s" (LoggedError.ucred e)])
      else if c.SnapOK then (true, t0)
      else (methodBlock c r false, t0)

/-- The `switch r.Method` of `ServeHTTP` (lines 152-161): the chosen `rspf`. -/
def Command.rspf (c : Command F) (r : Request) : Option F :=
  if r.Method = "GET" then c.GET
  else if r.Method = "PUT" then c.PUT
  else if r.Method = "POST" then c.POST
  else if r.Method = "DELETE" then c.DELETE
  else none

/-- `Command.ServeHTTP` (lines 137-168): the response that is served and the trace. -/
def Command.ServeHTTP (env : Env F U Resp) (c : Command F) (r : Request) :
    Resp × List (Event F U) :=
  let user := env.UserFromRequest r
  let t0 : List (Event F U) := [Event.stateLock, Event.userFromRequest r, Event.stateUnlock]
  let acc := c.canAccess env r user
  if !acc.1 then (env.Unauthorized "access denied", t0 ++ acc.2)
  else
    let rsp := env.MethodNotAllowed "method %q not allowed" r.Method
    match c.rspf r with
    | some f => (env.apply f c r user, t0 ++ acc.2 ++ [Event.call f c r user])
    | none => (rsp, t0 ++ acc.2)

end canAccess

/-! ### Concrete inputs used to evaluate the embedding -/

/-- An environment in which no request carries peer credentials (every lookup
returns `errNoID`), polkit authorises nobody and nobody is authenticated. -/
def snapSocketEnv : Env Nat Nat String where
  ucrednetGet := fun _ => { pid := 0, uid := 0, err := some UcredError.errNoID }
  polkitCheckAuthorizationForPid := fun _ _ => { authorized := false, err := none }
  UserFromRequest := fun _ => none
  apply := fun f _ r _ => "handler " ++ toString f ++ " on " ++ r.Method
  Unauthorized := fun msg => "401 " ++ msg
  MethodNotAllowed := fun fmt arg => "405 " ++ fmt ++ " " ++ arg

/-- An environment in which every peer is the superuser (pid 1, uid 0). -/
def rootEnv : Env Nat Nat String where
  ucrednetGet := fun _ => { pid := 1, uid := 0, err := none }
  polkitCheckAuthorizationForPid := fun _ _ => { authorized := false, err := none }
  UserFromRequest := fun _ => none
  apply := fun f _ r _ => "handler " ++ toString f ++ " on " ++ r.Method
  Unauthorized := fun msg => "401 " ++ msg
  MethodNotAllowed := fun fmt arg => "405 " ++ fmt ++ " " ++ arg

/-- A command that only guests may read: `GuestOK` is set, `SnapOK` is not. -/
def guestCmd : Command Nat where
  Path := "/v2/system-info"
  GET := some 7
  PUT := none
  POST := none
  DELETE := none
  GuestOK := true
  UserOK := false
  SnapOK := false
  PolkitOK := ""

/-- A command of the snap socket: `SnapOK` is set, with a `POST` handler. -/
def snapCmd : Command Nat where
  Path := "/v2/snapctl"
  GET := none
  PUT := none
  POST := some 3
  DELETE := none
  GuestOK := false
  UserOK := false
  SnapOK := true
  PolkitOK := ""

/-- A `GET` request without peer credentials. -/
def getReq : Request := { Method := "GET", RemoteAddr := "" }

/-- A `POST` request without peer credentials. -/
def postReq : Request := { Method := "POST", RemoteAddr := "" }

end Daemon

/-!
# Part 2: the i2c interface and the apparmor and udev specifications

Of this part only the test suite `interfaces/builtin/i2c_test.go` is at hand: the
i2c interface and the two specification builders are modelled from the spec
(sections 3, 4.2, 4.3 and 9) and from what the tests pin down. The fixtures of
`SetUpTest` are transcribed from the test file.
-/

namespace interfaces

/-- Modelled from the spec: a scalar attribute value (section 3). -/
inductive Scalar where
  | str (s : String)
  | int (n : Int)
  | bool (b : Bool)
deriving DecidableEq, Repr

/-- Modelled from the spec: an attribute value, a scalar or a sequence
(section 3). -/
inductive AttrValue where
  | scalar (v : Scalar)
  | seq (items : List Scalar)
deriving DecidableEq, Repr

/-- Modelled from the spec: the free-form attribute mapping of a plug or slot
(section 3), string keys to scalar or sequence values, as an association list. -/
abbrev Attrs := List (String × AttrValue)

/-- Modelled from the spec: the lookup of an attribute by its key; `none` when
the attribute is missing. -/
def Attrs.get : Attrs → String → Option AttrValue
  | [], _ => none
  | (k, v) :: rest, key => if k = key then some v else Attrs.get rest key

/-- Modelled from the spec: the name of an application or of a hook of a snap,
one member of the set of application/hook names of a plug or slot (section 3). -/
inductive AppOrHook where
  | app (name : String)
  | hook (name : String)
deriving DecidableEq, Repr

/-- Modelled from the spec: the Plug of section 3 (owning snap, local name,
capability-type name, attributes, and the set of application/hook names that
may exercise it). -/
structure Plug where
  Snap : String
  Name : String
  Interface : String
  Attrs : Attrs
  Apps : List AppOrHook
deriving DecidableEq, Repr

/-- Modelled from the spec: the Slot of section 3, with the fields of a Plug. -/
structure Slot where
  Snap : String
  Name : String
  Interface : String
  Attrs : Attrs
  Apps : List AppOrHook
deriving DecidableEq, Repr

/-- Modelled from the spec: the security tag of an app (section 3), with the
`snap.` lead that `TestAppArmorSpec` shows. -/
def appSecurityTag (snap app : String) : String :=
  "snap." ++ snap ++ "." ++ app

/-- Modelled from the spec: the security tag of a hook (section 3), with the
same `snap.` lead as the tag of an app. -/
def hookSecurityTag (snap hook : String) : String :=
  "snap." ++ snap ++ ".hook." ++ hook

/-- Modelled from the spec: the security tag of one enforcement unit of a snap,
an application or a hook (section 3). -/
def AppOrHook.SecurityTag (snap : String) : AppOrHook → String
  | .app name => appSecurityTag snap name
  | .hook name => hookSecurityTag snap name

/-- Strict lexicographic order on the characters of two strings, by code point
(the byte order of Go strings). -/
def lexLt : List Char → List Char → Bool
  | _, [] => false
  | [], _ :: _ => true
  | a :: as, b :: bs =>
    if a.toNat < b.toNat then true
    else if b.toNat < a.toNat then false
    else lexLt as bs

/-- Insertion of a tag into a sorted list of tags, dropping a duplicate. -/
def insertTag (t : String) : List String → List String
  | [] => [t]
  | u :: us =>
    if t = u then u :: us
    else if lexLt t.data u.data then t :: u :: us
    else u :: insertTag t us

/-- Modelled from the spec: the sorted, de-duplicated traversal of tags
(section 4.3). -/
def sortTags (l : List String) : List String :=
  l.foldr insertTag []

/-- Modelled from the spec: the security tags of a plug, one per application or
hook in its set (section 3), in sorted order. -/
def Plug.SecurityTags (plug : Plug) : List String :=
  sortTags (plug.Apps.map (AppOrHook.SecurityTag plug.Snap))

/-- Modelled from the spec: the security backends of section 2. -/
inductive SecurityBackend where
  | apparmor
  | seccomp
  | udev
  | dbus
  | mount
  | kmod
deriving DecidableEq, Repr

/-- Modelled from the spec: the backend-specific error of a snippet method whose
attributes cannot be rendered into the grammar of the backend (section 4.2). -/
inductive SnippetError where
  | cannotRender (ifaceName : String) (backend : SecurityBackend)
deriving DecidableEq, Repr

/-- Modelled from the spec: the capability type contract of section 4.2, with the
operations the tests exercise. A snippet method returns the snippets it
contributes (none is a no-op) or fails. -/
structure Interface where
  Name : String
  SanitizeSlot : Slot → Except String Unit
  AutoConnect : Option Plug → Option Slot → Bool
  ConnectedPlugSnippet :
    SecurityBackend → Plug → Attrs → Slot → Attrs → Except SnippetError (List String)

/-- Modelled from the spec: sanitization of a slot delegates to the sanitizer of
the capability type (sections 4.1 and 4.2). -/
def Slot.Sanitize (slot : Slot) (iface : interfaces.Interface) : Except String Unit :=
  iface.SanitizeSlot slot

end interfaces

namespace builtin

open interfaces

/-- Modelled from the spec: the device-node naming pattern of the i2c path
attribute, `/dev/i2c-` followed by one or more decimal digits and nothing else
(section 4.2 and the paths the tests accept and reject). -/
def i2cControlDeviceNodePattern (path : String) : Bool :=
  "/dev/i2c-".data.isPrefixOf path.data &&
    (!(path.data.drop "/dev/i2c-".data.length).isEmpty &&
      (path.data.drop "/dev/i2c-".data.length).all Char.isDigit)

/-- The form `/dev/i2c-<one or more decimal digits>` of a device path. -/
def IsI2cDeviceNode (path : String) : Prop :=
  ∃ N : String, N.data ≠ [] ∧ (∀ c ∈ N.data, c.isDigit = true) ∧ path = "/dev/i2c-" ++ N

/-- The characters after the last `/` of a list of characters. -/
def lastSegment : List Char → List Char
  | [] => []
  | c :: cs => if '/' ∈ cs then lastSegment cs else if c = '/' then cs else c :: cs

/-- Modelled from the spec: the base name of a device path, the part after its
last slash. -/
def baseName (path : String) : String :=
  String.mk (lastSegment path.data)

/-- Every dot of a string replaced by an underscore. -/
def dotsToUnderscores (s : String) : String :=
  String.mk (s.data.map fun c => if c = '.' then '_' else c)

/-- Modelled from the spec: the slot sanitizer of the i2c type (i2c.go is not at
hand). A path that is missing or the empty string fails with the first error
text of `TestSanitizeBadGadgetSnapSlot`; a string of the device-node pattern
passes; every other path that is present, of whatever type, fails with the
second error text. -/
def i2cSanitizeSlot (slot : Slot) : Except String Unit :=
  match slot.Attrs.get "path" with
  | none => .error "i2c slot must have a path attribute"
  | some (.scalar (.str path)) =>
    if path = "" then .error "i2c slot must have a path attribute"
    else if i2cControlDeviceNodePattern path then .ok ()
    else .error "i2c path attribute must be a valid device node"
  | some _ => .error "i2c path attribute must be a valid device node"

/-- Modelled from the spec: the udev rule that tags the device `kernel` for one
security tag, written with underscores for dots (`TestUDevSpec`). -/
def udevRule (kernel securityTag : String) : String :=
  "KERNEL==\x22" ++ kernel ++ "\x22, TAG+=\x22" ++ dotsToUnderscores securityTag ++ "\x22"

/-- Modelled from the spec: the connected-plug snippets of the i2c type (i2c.go
is not at hand). For apparmor the two rules of `TestAppArmorSpec`; for udev one
rule per security tag of the plug, as in `TestUDevSpec`; both fail when the
slot has no path string to render (section 4.2). No contribution to the other
backends. -/
def i2cConnectedPlugSnippet (backend : SecurityBackend) (plug : Plug) (_plugAttrs : Attrs)
    (slot : Slot) (_slotAttrs : Attrs) : Except SnippetError (List String) :=
  match backend with
  | .apparmor =>
    match slot.Attrs.get "path" with
    | some (.scalar (.str path)) =>
      .ok [path ++ " rw,",
           "/sys/devices/platform/\x7b*,**.i2c\x7d/" ++ baseName path ++ "/** rw,"]
    | _ => .error (SnippetError.cannotRender "i2c" SecurityBackend.apparmor)
  | .udev =>
    match slot.Attrs.get "path" with
    | some (.scalar (.str path)) =>
      .ok (plug.SecurityTags.map (udevRule (baseName path)))
    | _ => .error (SnippetError.cannotRender "i2c" SecurityBackend.udev)
  | _ => .ok []

/-- Modelled from the spec: the i2c capability type, `builtin.MustInterface "i2c"`. -/
def i2cInterface : Interface where
  Name := "i2c"
  SanitizeSlot := i2cSanitizeSlot
  AutoConnect := fun _ _ => true
  ConnectedPlugSnippet := i2cConnectedPlugSnippet

end builtin

namespace apparmor

open interfaces

/-- Modelled from the spec: the apparmor Specification, a mapping from security
tag to an ordered, de-duplicated sequence of snippets (section 3), as an
association list in order of first insertion. -/
structure Specification where
  snippets : List (String × List String) := []
deriving DecidableEq, Repr

/-- The snippets filed under a tag; `none` when the tag has no entry. -/
def lookupTag : List (String × List String) → String → Option (List String)
  | [], _ => none
  | (t, ss) :: rest, tag => if t = tag then some ss else lookupTag rest tag

/-- Modelled from the spec: the ordered set of section 9, a sequence plus a
membership check; insertion order is kept and a duplicate is dropped. -/
def appendUnique (ss : List String) (snippet : String) : List String :=
  if snippet ∈ ss then ss else ss ++ [snippet]

/-- Files a snippet under a tag, creating the entry of the tag when needed. -/
def addUnder : List (String × List String) → String → String → List (String × List String)
  | [], tag, snippet => [(tag, [snippet])]
  | (t, ss) :: rest, tag, snippet =>
    if t = tag then (t, appendUnique ss snippet) :: rest
    else (t, ss) :: addUnder rest tag snippet

/-- Modelled from the spec: appends one snippet, de-duplicated, under one
security tag (section 4.3). -/
def Specification.AddSnippet (spec : Specification) (tag snippet : String) : Specification :=
  { snippets := addUnder spec.snippets tag snippet }

/-- Modelled from the spec: `AddConnectedPlug` of section 4.3. It delegates to the
connected-plug snippet method of the capability type and appends the result,
de-duplicated, under each security tag of the plug; an error of the snippet
method propagates unchanged and nothing is added. -/
def Specification.AddConnectedPlug (spec : Specification) (iface : Interface) (plug : Plug)
    (plugAttrs : Attrs) (slot : Slot) (slotAttrs : Attrs) : Except SnippetError Specification :=
  match iface.ConnectedPlugSnippet SecurityBackend.apparmor plug plugAttrs slot slotAttrs with
  | .error e => .error e
  | .ok snippets =>
    .ok (plug.SecurityTags.foldl
      (fun sp tag => snippets.foldl (fun sp2 snippet => sp2.AddSnippet tag snippet) sp) spec)

/-- Modelled from the spec: the security tags that hold snippets, in sorted order
(section 4.3). -/
def Specification.SecurityTags (spec : Specification) : List String :=
  sortTags (spec.snippets.map Prod.fst)

/-- The snippets of a list, one per line. -/
def joinLines : List String → String
  | [] => ""
  | [s] => s
  | s :: t :: rest => s ++ "\n" ++ joinLines (t :: rest)

/-- Modelled from the spec: the text filed under a tag, its snippets in order,
one per line; empty for a tag without entry. -/
def Specification.SnippetForTag (spec : Specification) (tag : String) : String :=
  joinLines ((lookupTag spec.snippets tag).getD [])

end apparmor

namespace udev

open interfaces

/-- Modelled from the spec: the udev Specification; its snippets are an ordered,
de-duplicated sequence of rules (`TestUDevSpec` indexes it as a list). -/
structure Specification where
  snippets : List String := []
deriving DecidableEq, Repr

/-- Modelled from the spec: appends one rule unless it is already there
(section 9). -/
def Specification.AddSnippet (spec : Specification) (snippet : String) : Specification :=
  { snippets := apparmor.appendUnique spec.snippets snippet }

/-- Modelled from the spec: `AddConnectedPlug` of section 4.3 for udev. It
delegates to the connected-plug snippet method of the capability type and
appends each rule, de-duplicated; an error propagates unchanged. -/
def Specification.AddConnectedPlug (spec : Specification) (iface : Interface) (plug : Plug)
    (plugAttrs : Attrs) (slot : Slot) (slotAttrs : Attrs) : Except SnippetError Specification :=
  match iface.ConnectedPlugSnippet SecurityBackend.udev plug plugAttrs slot slotAttrs with
  | .error e => .error e
  | .ok snippets => .ok (snippets.foldl (fun sp snippet => sp.AddSnippet snippet) spec)

/-- Modelled from the spec: the finalized view of the rules. -/
def Specification.Snippets (spec : Specification) : List String :=
  spec.snippets

end udev

namespace testutil

/-- The checker `testutil.Contains` on strings: the second string occurs in the
first. -/
def Contains (s sub : String) : Prop :=
  sub.data <:+: s.data

instance (s sub : String) : Decidable (Contains s sub) :=
  List.decidableInfix sub.data s.data

end testutil

/-! ### The fixtures of `I2cInterfaceSuite.SetUpTest` -/

namespace I2cInterfaceSuite

open interfaces

/-- A slot `name` of the gadget snap `some-device` with the given attributes. -/
def gadgetSlot (name ifaceName : String) (attrs : Attrs) : Slot :=
  { Snap := "some-device", Name := name, Interface := ifaceName, Attrs := attrs, Apps := [] }

/-- The attribute mapping that holds only the string `path`. -/
def pathAttr (path : String) : Attrs :=
  [("path", AttrValue.scalar (Scalar.str path))]

/-- The interface under test. -/
def iface : Interface := builtin.i2cInterface

/-- The slot `test-port-1` of the os snap `ubuntu-core`. -/
def testSlot1 : Slot :=
  { Snap := "ubuntu-core", Name := "test-port-1", Interface := "i2c",
    Attrs := pathAttr "/dev/i2c-0", Apps := [] }

def testUDev1 : Slot := gadgetSlot "test-udev-1" "i2c" (pathAttr "/dev/i2c-1")
def testUDev2 : Slot := gadgetSlot "test-udev-2" "i2c" (pathAttr "/dev/i2c-11")
def testUDev3 : Slot := gadgetSlot "test-udev-3" "i2c" (pathAttr "/dev/i2c-0")
def testUDevBadValue1 : Slot := gadgetSlot "test-udev-bad-value-1" "i2c" (pathAttr "/dev/i2c")
def testUDevBadValue2 : Slot := gadgetSlot "test-udev-bad-value-2" "i2c" (pathAttr "/dev/i2c-a")
def testUDevBadValue3 : Slot := gadgetSlot "test-udev-bad-value-3" "i2c" (pathAttr "/dev/i2c-2a")
def testUDevBadValue4 : Slot := gadgetSlot "test-udev-bad-value-4" "i2c" (pathAttr "/dev/foo-0")
def testUDevBadValue5 : Slot := gadgetSlot "test-udev-bad-value-5" "i2c" (pathAttr "/dev/i2c-foo")
def testUDevBadValue6 : Slot := gadgetSlot "test-udev-bad-value-6" "i2c" (pathAttr "")
def testUDevBadValue7 : Slot := gadgetSlot "test-udev-bad-value-7" "i2c" []
def testUDevBadInterface1 : Slot := gadgetSlot "test-udev-bad-interface-1" "other-interface" []

/-- A gadget slot whose path is the number 1, not a string. -/
def slotWithNumericPath : Slot :=
  gadgetSlot "numeric-path" "i2c" [("path", AttrValue.scalar (Scalar.int 1))]

/-- The plug `plug-for-port-1` of `client-snap`; it is not scoped to an app, so
it is bound to the one app of the snap. -/
def testPlugPort1 : Plug :=
  { Snap := "client-snap", Name := "plug-for-port-1", Interface := "i2c", Attrs := [],
    Apps := [AppOrHook.app "app-accessing-1-port"] }

end I2cInterfaceSuite

/-! ## Theorems about the daemon -/

namespace Daemon

section lemmas

variable {F U Resp : Type}

theorem polkitBlock_granted (env : Env F U Resp) (c : Command F) (pid : Nat)
    (h : (polkitBlock env c pid).1 = true) :
    c.PolkitOK ≠ "" ∧ (env.polkitCheckAuthorizationForPid pid c.PolkitOK).authorized = true ∧
      (env.polkitCheckAuthorizationForPid pid c.PolkitOK).err = none := by
  unfold polkitBlock at h
  by_cases hp : c.PolkitOK = ""
  · simp [hp] at h
  · simp only [ne_eq, hp, not_false_eq_true, if_true] at h
    cases he : (env.polkitCheckAuthorizationForPid pid c.PolkitOK).err with
    | none =>
      rw [he] at h
      by_cases ha : (env.polkitCheckAuthorizationForPid pid c.PolkitOK).authorized = true
      · exact ⟨hp, ha, rfl⟩
      · simp [ha] at h
    | some e =>
      rw [he] at h
      by_cases hd : e = PolkitError.ErrDismissed <;> simp [hd] at h

theorem polkitBlock_no_call (env : Env F U Resp) (c : Command F) (pid : Nat) :
    (polkitBlock env c pid).2.filter Event.isCall = [] := by
  unfold polkitBlock
  by_cases hp : c.PolkitOK = ""
  · simp [hp]
  · simp only [ne_eq, hp, not_false_eq_true, if_true]
    cases (env.polkitCheckAuthorizationForPid pid c.PolkitOK).err with
    | none =>
      by_cases ha : (env.polkitCheckAuthorizationForPid pid c.PolkitOK).authorized = true <;>
        simp [ha, Event.isCall]
    | some e =>
      by_cases hd : e = PolkitError.ErrDismissed <;> simp [hd, Event.isCall]

theorem canAccess_no_call (env : Env F U Resp) (c : Command F) (r : Request) (user : Option U) :
    (c.canAccess env r user).2.filter Event.isCall = [] := by
  unfold Command.canAccess
  cases user with
  | some u => simp
  | none =>
    simp only
    cases (env.ucrednetGet r.RemoteAddr).err with
    | none =>
      by_cases h0 : (env.ucrednetGet r.RemoteAddr).uid = 0
      · simp [h0, Event.isCall]
      · by_cases hk : (polkitBlock env c (env.ucrednetGet r.RemoteAddr).pid).1 = true <;>
          simp [h0, hk, Event.isCall, polkitBlock_no_call]
    | some e =>
      by_cases he : e = UcredError.errNoID
      · by_cases hs : c.SnapOK = true <;> simp [he, hs, Event.isCall]
      · simp [he, Event.isCall]

theorem methodBlock_nonGET (c : Command F) (r : Request) (isUser : Bool)
    (hm : r.Method ≠ "GET") : methodBlock c r isUser = false := by
  simp [methodBlock, hm]

theorem rspf_eq_some_iff (c : Command F) (r : Request) (f : F) :
    c.rspf r = some f ↔
      ((r.Method = "GET" ∧ c.GET = some f) ∨ (r.Method = "PUT" ∧ c.PUT = some f) ∨
       (r.Method = "POST" ∧ c.POST = some f) ∨ (r.Method = "DELETE" ∧ c.DELETE = some f)) := by
  unfold Command.rspf
  by_cases h1 : r.Method = "GET"
  · simp [h1]
  · by_cases h2 : r.Method = "PUT"
    · simp [h2]
    · by_cases h3 : r.Method = "POST"
      · simp [h3]
      · by_cases h4 : r.Method = "DELETE"
        · simp [h4]
        · simp [h1, h2, h3, h4]

end lemmas

section claims

variable {F U Resp : Type}

/-- C1: a request without authenticated user whose method is not GET is granted
only if (a) the peer is uid 0, or (b) polkit authorised the peer for the action
`PolkitOK` without error, or (c) the lookup returned `errNoID` and `SnapOK` is
set; and the decision on such a request does not depend on `GuestOK`, `UserOK`. -/
theorem canAccess_nonGET_granted_only_by_root_polkit_snap
    (env : Env F U Resp) (c : Command F) (r : Request)
    (hm : r.Method ≠ "GET") (h : (c.canAccess env r none).1 = true) :
    (((env.ucrednetGet r.RemoteAddr).err = none ∧ (env.ucrednetGet r.RemoteAddr).uid = 0) ∨
     ((env.ucrednetGet r.RemoteAddr).err = none ∧ c.PolkitOK ≠ "" ∧
        (env.polkitCheckAuthorizationForPid
          (env.ucrednetGet r.RemoteAddr).pid c.PolkitOK).authorized = true ∧
        (env.polkitCheckAuthorizationForPid
          (env.ucrednetGet r.RemoteAddr).pid c.PolkitOK).err = none) ∨
     ((env.ucrednetGet r.RemoteAddr).err = some UcredError.errNoID ∧ c.SnapOK = true)) ∧
    ∀ g u : Bool,
      (Command.canAccess env { c with GuestOK := g, UserOK := u } r none).1 =
        (c.canAccess env r none).1 := by
  constructor
  · unfold Command.canAccess at h
    simp only at h
    cases he : (env.ucrednetGet r.RemoteAddr).err with
    | none =>
      rw [he] at h
      by_cases h0 : (env.ucrednetGet r.RemoteAddr).uid = 0
      · exact Or.inl ⟨rfl, h0⟩
      · by_cases hk : (polkitBlock env c (env.ucrednetGet r.RemoteAddr).pid).1 = true
        · exact Or.inr (Or.inl ⟨rfl, polkitBlock_granted env c _ hk⟩)
        · simp [h0, hk, methodBlock_nonGET c r true hm] at h
    | some e =>
      rw [he] at h
      by_cases hn : e = UcredError.errNoID
      · by_cases hs : c.SnapOK = true
        · exact Or.inr (Or.inr ⟨by rw [hn], hs⟩)
        · simp [hn, hs, methodBlock_nonGET c r false hm] at h
      · simp [hn] at h
  · intro g u
    unfold Command.canAccess
    simp only
    cases (env.ucrednetGet r.RemoteAddr).err with
    | none =>
      by_cases h0 : (env.ucrednetGet r.RemoteAddr).uid = 0
      · simp [h0]
      · have hpk : ∀ pid, polkitBlock env { c with GuestOK := g, UserOK := u } pid =
            polkitBlock env c pid := fun pid => rfl
        by_cases hk : (polkitBlock env c (env.ucrednetGet r.RemoteAddr).pid).1 = true <;>
          simp [h0, hk, hpk, methodBlock_nonGET _ r true hm]
    | some e =>
      by_cases hn : e = UcredError.errNoID
      · by_cases hs : c.SnapOK = true <;> simp [hn, hs, methodBlock_nonGET _ r false hm]
      · simp [hn]

/-- Witness of C1: a POST on the snap socket to a `SnapOK` command is granted,
through case (c). -/
theorem canAccess_nonGET_granted_only_by_root_polkit_snap_witness :
    postReq.Method ≠ "GET" ∧ (snapCmd.canAccess snapSocketEnv postReq none).1 = true ∧
    ((snapSocketEnv.ucrednetGet postReq.RemoteAddr).err = some UcredError.errNoID ∧
      snapCmd.SnapOK = true) :=
  ⟨by decide, by decide,
    ((canAccess_nonGET_granted_only_by_root_polkit_snap snapSocketEnv snapCmd postReq
      (by decide) (by decide)).1.resolve_left (by decide)).resolve_left (by decide)⟩

/-- C3: an authenticated user is granted every request, without any lookup of
peer credentials or polkit (the trace is empty); and without authenticated
user a peer whose credential lookup succeeds with uid 0 is granted every
request, whatever the method and the flags of the command. -/
theorem canAccess_authenticated_or_root (env : Env F U Resp) (c : Command F) (r : Request) :
    (∀ u : U, c.canAccess env r (some u) = (true, [])) ∧
    ((env.ucrednetGet r.RemoteAddr).err = none → (env.ucrednetGet r.RemoteAddr).uid = 0 →
      (c.canAccess env r none).1 = true) := by
  refine ⟨fun u => rfl, fun he h0 => ?_⟩
  unfold Command.canAccess
  simp [he, h0]

/-- Witness of C3: a DELETE by uid 0 on a command without any flag is granted. -/
theorem canAccess_authenticated_or_root_witness :
    (rootEnv.ucrednetGet "").err = none ∧ (rootEnv.ucrednetGet "").uid = 0 ∧
    (Command.canAccess rootEnv guestCmd { Method := "DELETE", RemoteAddr := "" } none).1 = true :=
  ⟨rfl, rfl,
    (canAccess_authenticated_or_root rootEnv guestCmd { Method := "DELETE", RemoteAddr := "" }).2
      rfl rfl⟩

/-- C4: the code at the failing input. The lookup returns `errNoID` (the request
came on the snap socket) and `SnapOK` is false, yet `canAccess` grants the GET,
because `GuestOK` is set; by the claim and by the comment of the field `SnapOK`
the path is not accessible on that socket. -/
theorem canAccess_snapSocket_grants_without_SnapOK :
    (snapSocketEnv.ucrednetGet getReq.RemoteAddr).err = some UcredError.errNoID ∧
    guestCmd.SnapOK = false ∧ guestCmd.GuestOK = true ∧ getReq.Method = "GET" ∧
    (guestCmd.canAccess snapSocketEnv getReq none).1 = true ∧
    ¬ ((guestCmd.canAccess snapSocketEnv getReq none).1 = true ↔ guestCmd.SnapOK = true) := by
  decide

/-- The decision the code takes when the lookup returns `errNoID` and no user is
authenticated: it grants access when `SnapOK` is set and, beyond that, exactly
to a GET of a command with `GuestOK`. -/
theorem canAccess_errNoID_decision (env : Env F U Resp) (c : Command F) (r : Request)
    (he : (env.ucrednetGet r.RemoteAddr).err = some UcredError.errNoID) :
    (c.canAccess env r none).1 = true ↔
      (c.SnapOK = true ∨ (r.Method = "GET" ∧ c.GuestOK = true)) := by
  unfold Command.canAccess
  simp only [he]
  by_cases hs : c.SnapOK = true
  · simp [hs]
  · by_cases hm : r.Method = "GET" <;> by_cases hg : c.GuestOK = true <;>
      simp [hs, hm, hg, methodBlock]

/-- C5: `ServeHTTP` serves `Unauthorized "access denied"` and calls no handler
when `canAccess` refuses the user found by `UserFromRequest`; otherwise, when
the method is GET, PUT, POST or DELETE and the field of that name holds a
handler `f`, it calls `f` exactly once, on `(c, r, user)`, and serves its
result; otherwise it calls no handler and serves `MethodNotAllowed`. -/
theorem ServeHTTP_routes_to_one_handler (env : Env F U Resp) (c : Command F) (r : Request) :
    ((c.canAccess env r (env.UserFromRequest r)).1 = false →
      (c.ServeHTTP env r).1 = env.Unauthorized "access denied" ∧
      (c.ServeHTTP env r).2.filter Event.isCall = []) ∧
    ((c.canAccess env r (env.UserFromRequest r)).1 = true →
      (∀ f : F,
        ((r.Method = "GET" ∧ c.GET = some f) ∨ (r.Method = "PUT" ∧ c.PUT = some f) ∨
         (r.Method = "POST" ∧ c.POST = some f) ∨ (r.Method = "DELETE" ∧ c.DELETE = some f)) →
        (c.ServeHTTP env r).1 = env.apply f c r (env.UserFromRequest r) ∧
        (c.ServeHTTP env r).2.filter Event.isCall =
          [Event.call f c r (env.UserFromRequest r)]) ∧
      ((¬ ∃ f : F,
        ((r.Method = "GET" ∧ c.GET = some f) ∨ (r.Method = "PUT" ∧ c.PUT = some f) ∨
         (r.Method = "POST" ∧ c.POST = some f) ∨ (r.Method = "DELETE" ∧ c.DELETE = some f))) →
        (c.ServeHTTP env r).1 = env.MethodNotAllowed "method %q not allowed" r.Method ∧
        (c.ServeHTTP env r).2.filter Event.isCall = [])) := by
  have hno := canAccess_no_call env c r (env.UserFromRequest r)
  refine ⟨fun hacc => ?_, fun hacc => ⟨fun f hf => ?_, fun hnf => ?_⟩⟩
  · unfold Command.ServeHTTP
    simp [hacc, hno, Event.isCall]
  · have hr := (rspf_eq_some_iff c r f).2 hf
    unfold Command.ServeHTTP
    simp [hacc, hr, hno, Event.isCall]
  · have hr : c.rspf r = none := by
      cases hc : c.rspf r with
      | none => rfl
      | some f => exact absurd ⟨f, (rspf_eq_some_iff c r f).1 hc⟩ hnf
    unfold Command.ServeHTTP
    simp [hacc, hr, hno, Event.isCall]

/-- Witness of C5: a POST on the snap socket to the `SnapOK` command, whose POST
handler is number 3, calls that handler once and serves what it returns. -/
theorem ServeHTTP_routes_to_one_handler_witness :
    (snapCmd.canAccess snapSocketEnv postReq (snapSocketEnv.UserFromRequest postReq)).1 = true ∧
    (postReq.Method = "POST" ∧ snapCmd.POST = some 3) ∧
    (snapCmd.ServeHTTP snapSocketEnv postReq).1 = snapSocketEnv.apply 3 snapCmd postReq none ∧
    (snapCmd.ServeHTTP snapSocketEnv postReq).2.filter Event.isCall =
      [Event.call 3 snapCmd postReq none] :=
  ⟨by decide, ⟨rfl, rfl⟩,
    ((ServeHTTP_routes_to_one_handler snapSocketEnv snapCmd postReq).2 (by decide)).1 3
      (Or.inr (Or.inr (Or.inl ⟨rfl, rfl⟩)))⟩

end claims

end Daemon

/-! ## Theorems about the i2c interface -/

namespace builtin

open interfaces

theorem i2cControlDeviceNodePattern_iff (path : String) :
    i2cControlDeviceNodePattern path = true ↔ IsI2cDeviceNode path := by
  unfold i2cControlDeviceNodePattern IsI2cDeviceNode
  constructor
  · intro h
    simp only [Bool.and_eq_true, List.isPrefixOf_iff_prefix, Bool.not_eq_true',
      List.isEmpty_eq_false, List.all_eq_true] at h
    obtain ⟨⟨t, ht⟩, hne, hd⟩ := h
    rw [← ht, List.drop_left] at hne hd
    refine ⟨String.mk t, hne, hd, ?_⟩
    apply String.ext
    rw [String.data_append, ← ht]
  · rintro ⟨N, hne, hd, rfl⟩
    simp only [Bool.and_eq_true, List.isPrefixOf_iff_prefix, Bool.not_eq_true',
      List.isEmpty_eq_false, List.all_eq_true, String.data_append, List.drop_left]
    exact ⟨⟨N.data, rfl⟩, hne, hd⟩

theorem i2cSanitizeSlot_ok_iff (slot : Slot) :
    i2cSanitizeSlot slot = .ok () ↔
      ∃ path, slot.Attrs.get "path" = some (AttrValue.scalar (Scalar.str path)) ∧
        IsI2cDeviceNode path := by
  unfold i2cSanitizeSlot
  cases hget : slot.Attrs.get "path" with
  | none => simp
  | some v =>
    cases v with
    | seq items => simp
    | scalar s =>
      cases s with
      | int n => simp
      | bool b => simp
      | str path =>
        by_cases he : path = ""
        · subst he
          have : ¬ IsI2cDeviceNode "" := by
            rw [← i2cControlDeviceNodePattern_iff]; decide
          simp [this]
        · by_cases hm : i2cControlDeviceNodePattern path = true
          · simp [he, hm, (i2cControlDeviceNodePattern_iff path).1 hm]
          · have : ¬ IsI2cDeviceNode path :=
              fun h => hm ((i2cControlDeviceNodePattern_iff path).2 h)
            simp [he, hm, this]

theorem isDigit_ne_slash (c : Char) (h : c.isDigit = true) : c ≠ '/' := by
  intro hc
  subst hc
  exact absurd h (by decide)

theorem lastSegment_i2c (ds : List Char) (hd : ∀ c ∈ ds, c.isDigit = true) :
    lastSegment ("/dev/i2c-".data ++ ds) = "i2c-".data ++ ds := by
  have hno : '/' ∉ ds := fun hm => isDigit_ne_slash _ (hd _ hm) rfl
  have h1 : "/dev/i2c-".data = ['/', 'd', 'e', 'v', '/', 'i', '2', 'c', '-'] := rfl
  have h2 : "i2c-".data = ['i', '2', 'c', '-'] := rfl
  rw [h1, h2]
  simp [lastSegment, hno]

theorem baseName_i2c (N : String) (hd : ∀ c ∈ N.data, c.isDigit = true) :
    baseName ("/dev/i2c-" ++ N) = "i2c-" ++ N := by
  unfold baseName
  apply String.ext
  rw [String.data_append, String.data_append]
  exact lastSegment_i2c N.data hd

/-- The digits of the path of a slot that passes the sanitizer. -/
theorem digits_of_sanitized (slot : Slot) (N : String)
    (hs : slot.Sanitize i2cInterface = .ok ())
    (hp : slot.Attrs.get "path" = some (AttrValue.scalar (Scalar.str ("/dev/i2c-" ++ N)))) :
    N.data ≠ [] ∧ ∀ c ∈ N.data, c.isDigit = true := by
  obtain ⟨path, hget, M, hne, hd, hM⟩ := (i2cSanitizeSlot_ok_iff slot).1 hs
  rw [hp] at hget
  have hpath : "/dev/i2c-" ++ N = path := by
    injection hget with h1
    injection h1 with h2
    injection h2
  have hEq : "/dev/i2c-" ++ N = "/dev/i2c-" ++ M := hpath.trans hM
  have hdata : N.data = M.data := by
    have := congrArg String.data hEq
    rw [String.data_append, String.data_append] at this
    exact List.append_cancel_left this
  rw [hdata]
  exact ⟨hne, hd⟩

theorem dotsToUnderscores_append (a b : String) :
    dotsToUnderscores (a ++ b) = dotsToUnderscores a ++ dotsToUnderscores b := by
  unfold dotsToUnderscores
  apply String.ext
  simp [String.data_append]

/-- A name without dot is left as it is. -/
theorem dotsToUnderscores_of_no_dot (s : String) (h : '.' ∉ s.data) :
    dotsToUnderscores s = s := by
  unfold dotsToUnderscores
  apply String.ext
  show s.data.map (fun c => if c = '.' then '_' else c) = s.data
  generalize s.data = cs at h
  induction cs with
  | nil => rfl
  | cons c rest ih =>
    have hc : c ≠ '.' := fun hh => h (by simp [hh])
    have hr : '.' ∉ rest := fun hh => h (List.mem_cons_of_mem _ hh)
    simp [hc, ih hr]

/-- The udev tag of an app: its security tag with every dot replaced. -/
theorem dotsToUnderscores_appSecurityTag (snap app : String) :
    dotsToUnderscores (appSecurityTag snap app) =
      "snap_" ++ dotsToUnderscores snap ++ "_" ++ dotsToUnderscores app := by
  unfold appSecurityTag
  rw [dotsToUnderscores_append, dotsToUnderscores_append, dotsToUnderscores_append]
  rfl

end builtin

namespace I2cInterfaceSuite

open interfaces builtin

/-- The model passes `TestName` and `TestAutoConnect`. -/
theorem TestNameAndAutoConnect :
    iface.Name = "i2c" ∧ iface.AutoConnect none none = true :=
  ⟨rfl, rfl⟩

/-- The model passes `TestSanitizeCoreSnapSlot`, `TestSanitizeGadgetSnapSlot` and
`TestSanitizeBadGadgetSnapSlot`. -/
theorem TestSanitize :
    testSlot1.Sanitize iface = .ok () ∧ testUDev1.Sanitize iface = .ok () ∧
    testUDev2.Sanitize iface = .ok () ∧ testUDev3.Sanitize iface = .ok () ∧
    testUDevBadValue1.Sanitize iface = .error "i2c path attribute must be a valid device node" ∧
    testUDevBadValue2.Sanitize iface = .error "i2c path attribute must be a valid device node" ∧
    testUDevBadValue3.Sanitize iface = .error "i2c path attribute must be a valid device node" ∧
    testUDevBadValue4.Sanitize iface = .error "i2c path attribute must be a valid device node" ∧
    testUDevBadValue5.Sanitize iface = .error "i2c path attribute must be a valid device node" ∧
    testUDevBadValue6.Sanitize iface = .error "i2c slot must have a path attribute" ∧
    testUDevBadValue7.Sanitize iface = .error "i2c slot must have a path attribute" :=
  ⟨rfl, rfl, rfl, rfl, rfl, rfl, rfl, rfl, rfl, rfl, rfl⟩

/-- The model passes `TestAppArmorSpec`. -/
theorem TestAppArmorSpec :
    ∃ spec : apparmor.Specification,
      ({} : apparmor.Specification).AddConnectedPlug iface testPlugPort1 [] testUDev1 [] =
        .ok spec ∧
      spec.SecurityTags = ["snap.client-snap.app-accessing-1-port"] ∧
      testutil.Contains (spec.SnippetForTag "snap.client-snap.app-accessing-1-port")
        "/dev/i2c-1 rw," ∧
      testutil.Contains (spec.SnippetForTag "snap.client-snap.app-accessing-1-port")
        "/sys/devices/platform/\x7b*,**.i2c\x7d/i2c-1/** rw," :=
  ⟨_, rfl, by decide, by decide, by decide⟩

/-- The model passes `TestUDevSpec`. -/
theorem TestUDevSpec :
    ∃ spec : udev.Specification,
      ({} : udev.Specification).AddConnectedPlug iface testPlugPort1 [] testUDev1 [] =
        .ok spec ∧
      spec.Snippets.length = 1 ∧
      ∀ rule ∈ spec.Snippets.head?, testutil.Contains rule
        "KERNEL==\x22i2c-1\x22, TAG+=\x22snap_client-snap_app-accessing-1-port\x22" :=
  ⟨_, rfl, by decide, by decide⟩

/-- C2: a slot passes the sanitizer of the i2c type exactly when its path
attribute is a string of the form `/dev/i2c-<digits>`; a missing or empty path
fails with "i2c slot must have a path attribute"; every other path that is
present, a string or not, among them the five rejected by the tests, fails with
"i2c path attribute must be a valid device node". -/
theorem i2c_Sanitize_slot (slot : Slot) :
    (slot.Sanitize i2cInterface = .ok () ↔
      ∃ path, slot.Attrs.get "path" = some (AttrValue.scalar (Scalar.str path)) ∧
        IsI2cDeviceNode path) ∧
    ((slot.Attrs.get "path" = none ∨
        slot.Attrs.get "path" = some (AttrValue.scalar (Scalar.str ""))) →
      slot.Sanitize i2cInterface = .error "i2c slot must have a path attribute") ∧
    (∀ v : AttrValue, slot.Attrs.get "path" = some v → v ≠ AttrValue.scalar (Scalar.str "") →
      (¬ ∃ path, v = AttrValue.scalar (Scalar.str path) ∧ IsI2cDeviceNode path) →
      slot.Sanitize i2cInterface = .error "i2c path attribute must be a valid device node") ∧
    (∀ path ∈ ["/dev/i2c", "/dev/i2c-a", "/dev/i2c-2a", "/dev/foo-0", "/dev/i2c-foo"],
      slot.Attrs.get "path" = some (AttrValue.scalar (Scalar.str path)) →
      slot.Sanitize i2cInterface = .error "i2c path attribute must be a valid device node") := by
  have hbad : ∀ path : String,
      slot.Attrs.get "path" = some (AttrValue.scalar (Scalar.str path)) → path ≠ "" →
      i2cControlDeviceNodePattern path = false →
      slot.Sanitize i2cInterface = .error "i2c path attribute must be a valid device node" := by
    intro path hp hne hm
    show i2cSanitizeSlot slot = _
    unfold i2cSanitizeSlot
    simp [hp, hne, hm]
  refine ⟨i2cSanitizeSlot_ok_iff slot, ?_, ?_, ?_⟩
  · intro h
    show i2cSanitizeSlot slot = _
    unfold i2cSanitizeSlot
    rcases h with h | h <;> simp [h]
  · intro v hv hne hform
    cases v with
    | seq items =>
      show i2cSanitizeSlot slot = _
      unfold i2cSanitizeSlot
      simp [hv]
    | scalar s =>
      cases s with
      | int n =>
        show i2cSanitizeSlot slot = _
        unfold i2cSanitizeSlot
        simp [hv]
      | bool b =>
        show i2cSanitizeSlot slot = _
        unfold i2cSanitizeSlot
        simp [hv]
      | str path =>
        have hne2 : path ≠ "" := fun h => hne (by rw [h])
        apply hbad path hv hne2
        cases hm : i2cControlDeviceNodePattern path with
        | false => rfl
        | true =>
          exact absurd ⟨path, rfl, (i2cControlDeviceNodePattern_iff path).1 hm⟩ hform
  · intro path hmem hp
    simp only [List.mem_cons, List.mem_singleton, List.not_mem_nil, or_false] at hmem
    rcases hmem with h | h | h | h | h <;> subst h <;> exact hbad _ hp (by decide) (by decide)

/-- Witness of C2 on the fixtures: `test-udev-2` passes and its path has the
form; the slot without path and the slot with empty path fail with the first
error; the slot with path `/dev/i2c-2a` and the slot whose path is a number
fail with the second. -/
theorem i2c_Sanitize_slot_witness :
    (∃ path, testUDev2.Attrs.get "path" = some (AttrValue.scalar (Scalar.str path)) ∧
      IsI2cDeviceNode path) ∧
    testUDevBadValue7.Sanitize iface = .error "i2c slot must have a path attribute" ∧
    testUDevBadValue6.Sanitize iface = .error "i2c slot must have a path attribute" ∧
    testUDevBadValue3.Sanitize iface = .error "i2c path attribute must be a valid device node" ∧
    slotWithNumericPath.Sanitize iface =
      .error "i2c path attribute must be a valid device node" :=
  ⟨(i2c_Sanitize_slot testUDev2).1.1 rfl,
   (i2c_Sanitize_slot testUDevBadValue7).2.1 (Or.inl rfl),
   (i2c_Sanitize_slot testUDevBadValue6).2.1 (Or.inr rfl),
   (i2c_Sanitize_slot testUDevBadValue3).2.2.2 "/dev/i2c-2a" (by decide) rfl,
   (i2c_Sanitize_slot slotWithNumericPath).2.2.1 (AttrValue.scalar (Scalar.int 1)) rfl
     (by decide) (by rintro ⟨path, h, _⟩; cases h)⟩

/-- C7: on a fresh udev specification `AddConnectedPlug` of a sanitized slot
`/dev/i2c-N` and a plug bound to exactly one app succeeds and leaves exactly
one snippet, which contains `KERNEL=="i2c-N", TAG+="snap_<snap>_<app>"`; the
kernel name `i2c-N` is the base name of the path of the slot, and the tag is
the security tag of the app with dots replaced by underscores, so that the
names of snap and app stand in it with their dots replaced too. -/
theorem udev_AddConnectedPlug_i2c (slot : Slot) (plug : Plug) (N app : String)
    (hs : slot.Sanitize i2cInterface = .ok ())
    (hp : slot.Attrs.get "path" = some (AttrValue.scalar (Scalar.str ("/dev/i2c-" ++ N))))
    (happ : plug.Apps = [AppOrHook.app app]) :
    ∃ (spec : udev.Specification) (rule : String),
      ({} : udev.Specification).AddConnectedPlug i2cInterface plug [] slot [] = .ok spec ∧
      spec.Snippets = [rule] ∧
      testutil.Contains rule
        ("KERNEL==\x22i2c-" ++ N ++ "\x22, TAG+=\x22snap_" ++ dotsToUnderscores plug.Snap ++ "_" ++
          dotsToUnderscores app ++ "\x22") ∧
      baseName ("/dev/i2c-" ++ N) = "i2c-" ++ N ∧
      dotsToUnderscores (appSecurityTag plug.Snap app) =
        "snap_" ++ dotsToUnderscores plug.Snap ++ "_" ++ dotsToUnderscores app := by
  obtain ⟨_, hd⟩ := digits_of_sanitized slot N hs hp
  have hbase := baseName_i2c N hd
  have htag := dotsToUnderscores_appSecurityTag plug.Snap app
  have htags : plug.SecurityTags = [appSecurityTag plug.Snap app] := by
    unfold Plug.SecurityTags
    rw [happ]
    rfl
  have hrule : udevRule (baseName ("/dev/i2c-" ++ N)) (appSecurityTag plug.Snap app) =
      "KERNEL==\x22i2c-" ++ N ++ "\x22, TAG+=\x22snap_" ++ dotsToUnderscores plug.Snap ++ "_" ++
        dotsToUnderscores app ++ "\x22" := by
    unfold udevRule
    rw [hbase, htag]
    apply String.ext
    simp only [String.data_append, List.append_assoc]
    rfl
  have hsn : i2cInterface.ConnectedPlugSnippet SecurityBackend.udev plug [] slot [] =
      .ok ["KERNEL==\x22i2c-" ++ N ++ "\x22, TAG+=\x22snap_" ++ dotsToUnderscores plug.Snap ++
        "_" ++ dotsToUnderscores app ++ "\x22"] := by
    show i2cConnectedPlugSnippet SecurityBackend.udev plug [] slot [] = _
    unfold i2cConnectedPlugSnippet
    simp only [hp, htags, List.map_cons, List.map_nil, hrule]
  refine ⟨{ snippets := ["KERNEL==\x22i2c-" ++ N ++ "\x22, TAG+=\x22snap_" ++
      dotsToUnderscores plug.Snap ++ "_" ++ dotsToUnderscores app ++ "\x22"] },
    "KERNEL==\x22i2c-" ++ N ++ "\x22, TAG+=\x22snap_" ++ dotsToUnderscores plug.Snap ++ "_" ++
      dotsToUnderscores app ++ "\x22",
    ?_, rfl, ⟨[], [], by simp⟩, hbase, htag⟩
  unfold udev.Specification.AddConnectedPlug
  rw [hsn]
  simp [udev.Specification.AddSnippet, apparmor.appendUnique]

/-- Witness of C7 on the fixtures of `TestUDevSpec`: the one snippet contains the
rule of the test, `snap_client-snap_app-accessing-1-port` being the security
tag `snap.client-snap.app-accessing-1-port` with its dots replaced. -/
theorem udev_AddConnectedPlug_i2c_witness :
    testUDev1.Sanitize i2cInterface = .ok () ∧
    testUDev1.Attrs.get "path" = some (AttrValue.scalar (Scalar.str ("/dev/i2c-" ++ "1"))) ∧
    testPlugPort1.Apps = [AppOrHook.app "app-accessing-1-port"] ∧
    ∃ (spec : udev.Specification) (rule : String),
      ({} : udev.Specification).AddConnectedPlug i2cInterface testPlugPort1 [] testUDev1 [] =
        .ok spec ∧
      spec.Snippets = [rule] ∧
      testutil.Contains rule
        "KERNEL==\x22i2c-1\x22, TAG+=\x22snap_client-snap_app-accessing-1-port\x22" ∧
      baseName "/dev/i2c-1" = "i2c-1" ∧
      dotsToUnderscores "snap.client-snap.app-accessing-1-port" =
        "snap_client-snap_app-accessing-1-port" :=
  ⟨rfl, rfl, rfl,
    udev_AddConnectedPlug_i2c testUDev1 testPlugPort1 "1" "app-accessing-1-port" rfl rfl rfl⟩

end I2cInterfaceSuite
